import Mathlib

/-!
Verification of the schema-checker script
`pkg/apis/fleet.cattle.io/v1alpha1/JSON/validate.py` from rancher/fleet.

The script reads the file `fleet-combined.schema.json`, parses it as JSON,
runs the JSON Schema 2020-12 metaschema-conformance check on the parsed
value, and prints one of two report lines.  We embed the module body as a
function `validateMain` over an explicit environment, parameterised by the
two external library routines it calls (`json.load` and
`Draft202012Validator.check_schema`), and also provide executable models of
those two routines for the claims about concrete input documents.
-/

namespace Validate

/-- A parsed JSON document: the structured-data tree produced by `json.load`.
Numbers are modelled as integers; no claim under verification involves a
non-integer numeric literal. -/
inductive JSON where
  | null : JSON
  | bool (b : Bool) : JSON
  | num (n : Int) : JSON
  | str (s : String) : JSON
  | arr (items : List JSON) : JSON
  | obj (members : List (String × JSON)) : JSON

/-- Characters that JSON treats as insignificant whitespace. -/
def isJsonSpace (c : Char) : Bool :=
  c == ' ' || c == '\t' || c == '\n' || c == '\r'

/-- Discard leading insignificant whitespace. -/
def eatSpaces (cs : List Char) : List Char := cs.dropWhile isJsonSpace

/-- The two-character string escapes paired with their decoded characters. -/
def escPairs : List (Char × Char) :=
  [('"', '"'), ('\\', '\\'), ('/', '/'), ('b', Char.ofNat 8),
    ('f', Char.ofNat 12), ('n', '\n'), ('r', '\r'), ('t', '\t')]

/-- Decode a two-character string escape, if it is one. -/
def escToChar (c : Char) : Option Char := escPairs.lookup c

/-- Read the remainder of a JSON string after its opening quote, giving the
decoded characters and the leftover input.  `\u` escapes are not modelled;
no claim under verification uses them. -/
def readStringTail : List Char → Except String (List Char × List Char)
  | [] => .error "Unterminated string starting at"
  | '"' :: rest => .ok ([], rest)
  | '\\' :: rest =>
    (match rest with
    | [] => .error "Unterminated string starting at"
    | e :: rest2 =>
      (match escToChar e with
      | some c => (readStringTail rest2).map fun p => (c :: p.1, p.2)
      | none => .error "Invalid \\escape"))
  | c :: rest => (readStringTail rest).map fun p => (c :: p.1, p.2)

/-- The value of a string of decimal digits. -/
def decDigitsVal (ds : List Char) : Nat :=
  ds.foldl (fun acc c => acc * 10 + (c.toNat - 48)) 0

/-- Whether the input starts with a character that would continue a numeric
literal beyond an integer: a fraction dot or an exponent marker. -/
def startsFracOrExp (cs : List Char) : Bool :=
  match cs.head? with
  | some c => c == '.' || c == 'e' || c == 'E'
  | none => false

/-- Read an unsigned JSON integer literal.  A fractional part or exponent is
rejected: numbers are modelled as integers (see `JSON`). -/
def readNatLiteral (cs : List Char) : Except String (Nat × List Char) :=
  let ds := cs.takeWhile Char.isDigit
  if ds.isEmpty then .error "Expecting value"
  else
    let rest := cs.drop ds.length
    if startsFracOrExp rest then
      .error "non-integer JSON numbers are not modelled"
    else .ok (decDigitsVal ds, rest)

/-- Read a JSON integer literal with its optional leading minus sign. -/
def readIntLiteral : List Char → Except String (JSON × List Char)
  | '-' :: rest => (readNatLiteral rest).map fun p => (.num (-(p.1 : Int)), p.2)
  | cs => (readNatLiteral cs).map fun p => (.num (p.1 : Int), p.2)

/-- Consume an expected literal tail, character by character. -/
def dropLit : List Char → List Char → Option (List Char)
  | [], cs => some cs
  | l :: ls, c :: cs => if c = l then dropLit ls cs else none
  | _ :: _, [] => none

mutual

/-- Fuelled recursive-descent reading of one JSON value, dispatching on the
first significant character; gives the value and the leftover input. -/
def readValue : Nat → List Char → Except String (JSON × List Char)
  | 0, _ => .error "Expecting value"
  | fuel + 1, cs =>
    match eatSpaces cs with
    | [] => .error "Expecting value"
    | c :: rest =>
      if c = 'n' then
        (match dropLit ['u', 'l', 'l'] rest with
        | some r => .ok (.null, r)
        | none => .error "Expecting value")
      else if c = 't' then
        (match dropLit ['r', 'u', 'e'] rest with
        | some r => .ok (.bool true, r)
        | none => .error "Expecting value")
      else if c = 'f' then
        (match dropLit ['a', 'l', 's', 'e'] rest with
        | some r => .ok (.bool false, r)
        | none => .error "Expecting value")
      else if c = '"' then
        (readStringTail rest).map fun p => (.str (String.mk p.1), p.2)
      else if c = '[' then
        (match eatSpaces rest with
        | ']' :: r2 => .ok (.arr [], r2)
        | r2 => (readArrayTail fuel r2).map fun p => (.arr p.1, p.2))
      else if c = '{' then
        (match eatSpaces rest with
        | '}' :: r2 => .ok (.obj [], r2)
        | r2 => (readObjectTail fuel r2).map fun p => (.obj p.1, p.2))
      else readIntLiteral (c :: rest)

/-- Read the comma-separated items of a non-empty JSON array, through the
closing bracket. -/
def readArrayTail : Nat → List Char → Except String (List JSON × List Char)
  | 0, _ => .error "Expecting value"
  | fuel + 1, cs => do
    let (v, r) ← readValue fuel cs
    match eatSpaces r with
    | ',' :: r2 => (readArrayTail fuel r2).map fun p => (v :: p.1, p.2)
    | ']' :: r2 => .ok ([v], r2)
    | _ => .error "Expecting comma delimiter or closing bracket"

/-- Read the comma-separated members of a non-empty JSON object, through the
closing brace. -/
def readObjectTail : Nat → List Char → Except String (List (String × JSON) × List Char)
  | 0, _ => .error "Expecting value"
  | fuel + 1, cs =>
    match eatSpaces cs with
    | '"' :: rest => do
      let (k, r) ← readStringTail rest
      match eatSpaces r with
      | ':' :: r2 => do
        let (v, r3) ← readValue fuel r2
        (match eatSpaces r3 with
        | ',' :: r4 => (readObjectTail fuel r4).map fun p => ((String.mk k, v) :: p.1, p.2)
        | '}' :: r4 => .ok ([(String.mk k, v)], r4)
        | _ => .error "Expecting comma delimiter or closing brace")
      | _ => .error "Expecting colon delimiter"
    | _ => .error "Expecting property name enclosed in double quotes"

end

/-- Modelled from the spec: `json.load` of the Python standard library is an
external routine not present in the repository sources.  The spec (section
4.1) describes it as parsing the textual file contents into a
structured-data tree, failing with the message of the parser on unparseable
content.  This model reads standard JSON restricted to integer numeric
literals and without `\u` string escapes (no claim needs either). -/
def json_load (s : String) : Except String JSON := do
  let (v, rest) ← readValue (2 * s.length + 1) s.data
  if (eatSpaces rest).isEmpty then .ok v else .error "Extra data"

/-- The seven primitive type names admitted by the 2020-12 `type` keyword. -/
def simpleTypes : List String :=
  ["array", "boolean", "integer", "null", "number", "object", "string"]

/-- Check the value of a `type` keyword: a primitive type name, or a
non-empty array of primitive type names. -/
def checkTypeValue : JSON → Except String Unit
  | .str s =>
    if simpleTypes.contains s then .ok ()
    else .error (s ++ " is not valid under any of the given schemas")
  | .arr items =>
    if items.isEmpty then
      .error "[] is not valid under any of the given schemas"
    else if items.all fun v =>
        match v with
        | .str s => simpleTypes.contains s
        | _ => false then
      .ok ()
    else .error "the array given for the keyword type is not valid under any of the given schemas"
  | _ => .error "the value given for the keyword type is not valid under any of the given schemas"

/-- Modelled from the spec: `jsonschema.Draft202012Validator.check_schema` is
an external library routine not present in the repository sources.  The spec
(sections 4.1 and 8) describes it as the metaschema-conformance check for the
JSON Schema 2020-12 vocabulary, and pins down this fragment: a schema
document must be a boolean or an object (P2/P6; booleans are legal schemas),
and inside an object the `type` keyword must hold a string or array of
strings naming primitive types (P1/P2).  On failure the returned message is
the raised error's `message` field. -/
def check_schema (schema : JSON) : Except String Unit :=
  match schema with
  | .bool _ => .ok ()
  | .obj members =>
    (match members.lookup "type" with
    | some v => checkTypeValue v
    | none => .ok ())
  | _ => .error "the document is not of type object or boolean"

/-- The ambient environment of one run of the script: the readable files
(`none` models a missing or unreadable file), the command-line arguments and
the environment variables.  The script consults only `files`. -/
structure Env where
  files : String → Option String
  argv : List String
  envVars : String → Option String

/-- The fixed relative path hard-coded in the script's `open` call. -/
def schemaPath : String := "fleet-combined.schema.json"

/-- The uncaught exceptions the module body can let propagate: an I/O error
from `open`, or a decode error from `json.load`. -/
inductive PyError where
  | fileNotFound (path : String)
  | jsonDecodeError (msg : String)

/-- The observable outcome of one run: normal termination (exit status zero)
with the list of lines printed to standard output, or an uncaught exception
(non-zero exit status) with the lines printed before the exception was
raised. -/
inductive RunResult where
  | exitZero (out : List String)
  | uncaught (out : List String) (err : PyError)

/-- The lines a run printed to standard output. -/
def RunResult.stdout : RunResult → List String
  | .exitZero out => out
  | .uncaught out _ => out

/-- The process exit status of a run: zero on normal termination, one when
an uncaught exception propagates out of the module body. -/
def RunResult.exitCode : RunResult → Nat
  | .exitZero _ => 0
  | .uncaught _ _ => 1

/-- The success report line printed by the script. -/
def validLine : String := "Schema is valid JSON Schema (Draft 2020-12)."

/-- Embedding of the module body of `validate.py`, parameterised by the two
external library routines it calls: `parse` stands for `json.load` and
`check` for `Draft202012Validator.check_schema` (whose failure is the raised
`SchemaError`, carrying its `message`).  It opens the fixed path, parses the
contents, checks the schema inside `try`, prints the success line on return
and the failure line (`print` with two arguments separated by one space) in
the `except SchemaError` handler; `open` and `json.load` failures propagate
uncaught. -/
def validateMain (parse : String → Except String JSON)
    (check : JSON → Except String Unit) (env : Env) : RunResult :=
  match env.files schemaPath with
  | none => .uncaught [] (.fileNotFound schemaPath)
  | some contents =>
    match parse contents with
    | .error m => .uncaught [] (.jsonDecodeError m)
    | .ok schema =>
      match check schema with
      | .ok _ => .exitZero [validLine]
      | .error m => .exitZero ["Schema is invalid: " ++ m]

/-- The script composed with the executable models of its two library
dependencies. -/
def run (env : Env) : RunResult := validateMain json_load check_schema env

/-- An environment whose only readable file is the fixed schema path, with
the given contents. -/
def envFor (contents : String) : Env :=
  { files := fun p => if p = schemaPath then some contents else none
    argv := []
    envVars := fun _ => none }

/-- An environment in which no file is readable. -/
def envNone : Env :=
  { files := fun _ => none
    argv := []
    envVars := fun _ => none }

/-- The concrete input document of spec property P2: a schema whose `type`
keyword holds a number. -/
def doc123 : String := "\x7b\"type\": 123\x7d"

/-- An environment with the same readable files as `envFor "\x7b\x7d"` but
different command-line arguments and environment variables. -/
def envAlt : Env :=
  { files := (envFor "{}").files
    argv := ["--verbose"]
    envVars := fun v => if v = "LANG" then some "C" else none }

end Validate

namespace Validate

/-- The failure report line (for any message) is never equal to the success
report line. -/
lemma invalid_line_ne_valid_line (m : String) :
    "Schema is invalid: " ++ m ≠ validLine := by
  intro h
  have h2 : ("Schema is invalid: ").data ++ m.data = validLine.data := by
    rw [← String.data_append, h]
  have h3 := congrArg (List.take 19) h2
  rw [List.take_left' (by decide)] at h3
  exact absurd h3 (by decide)

/-- The run outcome depends on the environment only through the contents of
the fixed schema path. -/
lemma validateMain_congr (parse : String → Except String JSON)
    (check : JSON → Except String Unit) (e1 e2 : Env)
    (h : e1.files schemaPath = e2.files schemaPath) :
    validateMain parse check e1 = validateMain parse check e2 := by
  unfold validateMain
  rw [h]

/-- Every run ends in exactly one of three outcomes: an uncaught exception
with nothing printed, the success line, or the failure line for some
message. -/
lemma validateMain_cases (parse : String → Except String JSON)
    (check : JSON → Except String Unit) (env : Env) :
    (∃ err, validateMain parse check env = .uncaught [] err) ∨
    validateMain parse check env = .exitZero [validLine] ∨
    ∃ m, validateMain parse check env = .exitZero ["Schema is invalid: " ++ m] := by
  cases hf : env.files schemaPath with
  | none => exact .inl ⟨.fileNotFound schemaPath, by simp [validateMain, hf]⟩
  | some c =>
    cases hp : parse c with
    | error m => exact .inl ⟨.jsonDecodeError m, by simp [validateMain, hf, hp]⟩
    | ok j =>
      cases hc : check j with
      | ok u => exact .inr (.inl (by simp [validateMain, hf, hp, hc]))
      | error m => exact .inr (.inr ⟨m, by simp [validateMain, hf, hp, hc]⟩)

/-- C1: for every input file whose contents parse as JSON and whose parsed
value passes the 2020-12 metaschema-conformance check, the program prints
exactly the line `Schema is valid JSON Schema (Draft 2020-12).`. -/
theorem valid_schema_prints_valid_line (parse : String → Except String JSON)
    (check : JSON → Except String Unit) (env : Env) (c : String) (j : JSON)
    (hfile : env.files schemaPath = some c) (hparse : parse c = .ok j)
    (hcheck : check j = .ok ()) :
    validateMain parse check env = .exitZero [validLine] := by
  simp [validateMain, hfile, hparse, hcheck]

/-- Witness for C1 at the concrete document `{}`. -/
theorem valid_schema_prints_valid_line_witness :
    validateMain json_load check_schema (envFor "{}") = .exitZero [validLine] :=
  valid_schema_prints_valid_line json_load check_schema (envFor "{}") "{}"
    (.obj []) rfl rfl rfl

/-- C2: for every input file whose contents parse as JSON but whose parsed
value fails the metaschema check with a schema-error carrying message `m`,
the program recovers, prints exactly `Schema is invalid: ` followed by `m`,
and terminates with exit code zero. -/
theorem invalid_schema_prints_invalid_line (parse : String → Except String JSON)
    (check : JSON → Except String Unit) (env : Env) (c : String) (j : JSON)
    (m : String) (hfile : env.files schemaPath = some c)
    (hparse : parse c = .ok j) (hcheck : check j = .error m) :
    validateMain parse check env = .exitZero ["Schema is invalid: " ++ m] ∧
    (validateMain parse check env).exitCode = 0 := by
  have h : validateMain parse check env = .exitZero ["Schema is invalid: " ++ m] := by
    simp [validateMain, hfile, hparse, hcheck]
  refine ⟨h, ?_⟩
  rw [h]
  rfl

/-- Witness for C2 at the concrete document with a numeric `type` value. -/
theorem invalid_schema_prints_invalid_line_witness :
    validateMain json_load check_schema (envFor doc123) =
      .exitZero ["Schema is invalid: " ++
        "the value given for the keyword type is not valid under any of the given schemas"] ∧
    (validateMain json_load check_schema (envFor doc123)).exitCode = 0 :=
  invalid_schema_prints_invalid_line json_load check_schema
    (envFor doc123) doc123 (.obj [("type", .num 123)])
    "the value given for the keyword type is not valid under any of the given schemas"
    rfl rfl rfl

/-- C3: when the input file is missing/unreadable or its contents do not
parse as JSON, the error is not recovered: the run ends in an uncaught
exception carrying the underlying I/O or parser message, the exit status is
non-zero, and nothing (in particular neither report line) is printed to
standard output. -/
theorem input_error_uncaught (parse : String → Except String JSON)
    (check : JSON → Except String Unit) (env : Env)
    (h : env.files schemaPath = none ∨
      ∃ c m, env.files schemaPath = some c ∧ parse c = .error m) :
    ∃ err, validateMain parse check env = .uncaught [] err ∧
      (validateMain parse check env).exitCode ≠ 0 ∧
      (validateMain parse check env).stdout = [] ∧
      (env.files schemaPath = none → err = .fileNotFound schemaPath) ∧
      (∀ c m, env.files schemaPath = some c → parse c = .error m →
        err = .jsonDecodeError m) := by
  rcases h with h | ⟨c, m, hc, hm⟩
  · have heq : validateMain parse check env = .uncaught [] (.fileNotFound schemaPath) := by
      simp [validateMain, h]
    refine ⟨.fileNotFound schemaPath, heq, ?_, ?_, fun _ => rfl, ?_⟩
    · rw [heq]
      exact Nat.one_ne_zero
    · rw [heq]
      rfl
    · intro c' m' hc' hm'
      rw [h] at hc'
      exact absurd hc' (by simp)
  · have heq : validateMain parse check env = .uncaught [] (.jsonDecodeError m) := by
      simp [validateMain, hc, hm]
    refine ⟨.jsonDecodeError m, heq, ?_, ?_, ?_, ?_⟩
    · rw [heq]
      exact Nat.one_ne_zero
    · rw [heq]
      rfl
    · intro hnone
      rw [hnone] at hc
      exact absurd hc (by simp)
    · intro c' m' hc' hm'
      rw [hc] at hc'
      obtain rfl : c = c' := Option.some.inj hc'
      rw [hm] at hm'
      obtain rfl : m = m' := by simpa using hm'
      rfl

/-- Witness for C3 at an environment with no readable file. -/
theorem input_error_uncaught_witness :
    ∃ err, validateMain json_load check_schema envNone = .uncaught [] err ∧
      (validateMain json_load check_schema envNone).exitCode ≠ 0 ∧
      (validateMain json_load check_schema envNone).stdout = [] ∧
      (envNone.files schemaPath = none → err = .fileNotFound schemaPath) ∧
      (∀ c m, envNone.files schemaPath = some c → json_load c = .error m →
        err = .jsonDecodeError m) :=
  input_error_uncaught json_load check_schema envNone (Or.inl rfl)


/-- C4 counterexample: at an environment with no readable file, the run
prints zero lines to standard output, not exactly one. -/
theorem one_line_counterexample : ¬ (run envNone).stdout.length = 1 := by
  decide

/-- C4 amended: a run that reads the file and parses it successfully prints
exactly one line to standard output; a run that fails while reading or
parsing the file prints zero lines to standard output (the uncaught
exception is reported outside standard output). -/
theorem one_line_amended (parse : String → Except String JSON)
    (check : JSON → Except String Unit) (env : Env) :
    ((∃ c j, env.files schemaPath = some c ∧ parse c = .ok j) →
      (validateMain parse check env).stdout.length = 1) ∧
    ((env.files schemaPath = none ∨
        ∃ c m, env.files schemaPath = some c ∧ parse c = .error m) →
      (validateMain parse check env).stdout.length = 0) := by
  constructor
  · rintro ⟨c, j, hc, hj⟩
    cases hk : check j with
    | ok u =>
      have : validateMain parse check env = .exitZero [validLine] := by
        simp [validateMain, hc, hj, hk]
      rw [this]
      rfl
    | error m =>
      have : validateMain parse check env =
          .exitZero ["Schema is invalid: " ++ m] := by
        simp [validateMain, hc, hj, hk]
      rw [this]
      rfl
  · rintro (h | ⟨c, m, hc, hm⟩)
    · have : validateMain parse check env = .uncaught [] (.fileNotFound schemaPath) := by
        simp [validateMain, h]
      rw [this]
      rfl
    · have : validateMain parse check env = .uncaught [] (.jsonDecodeError m) := by
        simp [validateMain, hc, hm]
      rw [this]
      rfl

/-- Witness for the amended C4 at the concrete document `{}`. -/
theorem one_line_amended_witness :
    (validateMain json_load check_schema (envFor "{}")).stdout.length = 1 :=
  (one_line_amended json_load check_schema (envFor "{}")).1 ⟨"{}", .obj [], rfl, rfl⟩

/-- C5: the run outcome, and in particular the printed output, is a function
of the contents of the input file alone: two runs in environments holding
the same unchanged file contents produce identical printed output. -/
theorem deterministic_in_file_input (parse : String → Except String JSON)
    (check : JSON → Except String Unit) (e1 e2 : Env)
    (h : e1.files schemaPath = e2.files schemaPath) :
    validateMain parse check e1 = validateMain parse check e2 ∧
    (validateMain parse check e1).stdout = (validateMain parse check e2).stdout := by
  have heq := validateMain_congr parse check e1 e2 h
  exact ⟨heq, by rw [heq]⟩

/-- Witness for C5: two environments holding the same file contents. -/
theorem deterministic_in_file_input_witness :
    validateMain json_load check_schema (envFor "{}") =
      validateMain json_load check_schema envAlt ∧
    (validateMain json_load check_schema (envFor "{}")).stdout =
      (validateMain json_load check_schema envAlt).stdout :=
  deterministic_in_file_input json_load check_schema (envFor "{}") envAlt rfl

/-- C6: for the concrete input document with a numeric `type` value, the
metaschema check fails, the program prints the failure line with a non-empty
message, and the exit status is zero. -/
theorem type_number_reported_invalid :
    check_schema (.obj [("type", .num 123)]) =
      .error "the value given for the keyword type is not valid under any of the given schemas" ∧
    ∃ m, run (envFor doc123) = .exitZero ["Schema is invalid: " ++ m] ∧
      m ≠ "" ∧ (run (envFor doc123)).exitCode = 0 :=
  ⟨rfl,
    "the value given for the keyword type is not valid under any of the given schemas",
    rfl, by decide, rfl⟩

/-- C7: for the concrete input document `{}`, the metaschema check succeeds
and the program prints the success line. -/
theorem empty_object_reported_valid :
    check_schema (.obj []) = .ok () ∧ run (envFor "{}") = .exitZero [validLine] :=
  ⟨rfl, rfl⟩

/-- C8: the program reads exactly one file, at the fixed relative path
`fleet-combined.schema.json`; command-line arguments, environment variables
and the contents of every other file have no effect on the run. -/
theorem reads_only_fixed_path (parse : String → Except String JSON)
    (check : JSON → Except String Unit) (f g : String → Option String)
    (a1 a2 : List String) (v1 v2 : String → Option String)
    (h : f schemaPath = g schemaPath) :
    schemaPath = "fleet-combined.schema.json" ∧
    validateMain parse check ⟨f, a1, v1⟩ = validateMain parse check ⟨g, a2, v2⟩ :=
  ⟨rfl, validateMain_congr parse check ⟨f, a1, v1⟩ ⟨g, a2, v2⟩ h⟩

/-- Witness for C8: two environments agreeing only at the fixed path. -/
theorem reads_only_fixed_path_witness :
    schemaPath = "fleet-combined.schema.json" ∧
    validateMain json_load check_schema
        ⟨fun p => if p = schemaPath then some "{}" else none, [], fun _ => none⟩ =
      validateMain json_load check_schema
        ⟨fun p => if p = schemaPath then some "{}" else some "junk", ["-v"],
          fun _ => some "1"⟩ :=
  reads_only_fixed_path json_load check_schema
    (fun p => if p = schemaPath then some "{}" else none)
    (fun p => if p = schemaPath then some "{}" else some "junk")
    [] ["-v"] (fun _ => none) (fun _ => some "1") (by simp)

/-- C9: the two report lines are mutually exclusive: no run prints both the
success line and a failure line. -/
theorem report_lines_mutually_exclusive (parse : String → Except String JSON)
    (check : JSON → Except String Unit) (env : Env)
    (h : ∃ m, ("Schema is invalid: " ++ m) ∈ (validateMain parse check env).stdout) :
    validLine ∉ (validateMain parse check env).stdout := by
  obtain ⟨m, hm⟩ := h
  intro hv
  rcases validateMain_cases parse check env with ⟨err, he⟩ | he | ⟨m2, he⟩
  · rw [he] at hv
    exact absurd hv (by simp [RunResult.stdout])
  · rw [he] at hm
    simp only [RunResult.stdout, List.mem_singleton] at hm
    exact invalid_line_ne_valid_line m hm
  · rw [he] at hv
    simp only [RunResult.stdout, List.mem_singleton] at hv
    exact invalid_line_ne_valid_line m2 hv.symm

/-- Witness for C9 at a run that prints the failure line. -/
theorem report_lines_mutually_exclusive_witness :
    (∃ m, ("Schema is invalid: " ++ m) ∈
      (validateMain json_load check_schema (envFor doc123)).stdout) ∧
    validLine ∉ (validateMain json_load check_schema (envFor doc123)).stdout :=
  ⟨⟨"the value given for the keyword type is not valid under any of the given schemas",
      by decide⟩,
    report_lines_mutually_exclusive json_load check_schema (envFor doc123)
      ⟨"the value given for the keyword type is not valid under any of the given schemas",
        by decide⟩⟩

/-- C10: any parseable top-level JSON value is passed to the metaschema
check and reported as valid or invalid, never rejected as an input error;
in particular the boolean documents are legal 2020-12 schemas under the
modelled check. -/
theorem any_top_level_value_checked (parse : String → Except String JSON)
    (check : JSON → Except String Unit) (env : Env) (c : String) (j : JSON)
    (hfile : env.files schemaPath = some c) (hparse : parse c = .ok j) :
    (∃ out, validateMain parse check env = .exitZero out ∧
      (out = [validLine] ∨ ∃ m, out = ["Schema is invalid: " ++ m])) ∧
    check_schema (.bool true) = .ok () ∧ check_schema (.bool false) = .ok () := by
  refine ⟨?_, rfl, rfl⟩
  cases hk : check j with
  | ok u =>
    exact ⟨[validLine], by simp [validateMain, hfile, hparse, hk], Or.inl rfl⟩
  | error m =>
    exact ⟨["Schema is invalid: " ++ m],
      by simp [validateMain, hfile, hparse, hk], Or.inr ⟨m, rfl⟩⟩

/-- Witness for C10 at the concrete document `true`. -/
theorem any_top_level_value_checked_witness :
    (∃ out, validateMain json_load check_schema (envFor "true") = .exitZero out ∧
      (out = [validLine] ∨ ∃ m, out = ["Schema is invalid: " ++ m])) ∧
    check_schema (.bool true) = .ok () ∧ check_schema (.bool false) = .ok () :=
  any_top_level_value_checked json_load check_schema (envFor "true") "true"
    (.bool true) rfl rfl

end Validate
